import Mathlib

/-!
Verification of the `cds-weather-api` repository: a shallow embedding of
`src/helpers.py` (the `CDSFormatter` range/format component) and
`src/WeatherApi.py` (the `WeatherApi` request descriptor and the
`RequestBuilder` fluent builder), together with proofs of the behavioural
claims made by the specification.

Modelling conventions:
- Python runtime values flowing into dynamically-typed parameters
  (`any`, `list`) are modelled by the inductive type `PyVal`
  (ints, floats, strings, lists).  Python floats are modelled as exact
  rationals: every comparison the code performs on coordinates is an exact
  numeric comparison, which rationals reproduce faithfully.
- Raised exceptions are modelled by the `Err` type; a function that can
  raise returns `Except Err _`, and builder setters return the descriptor
  state paired with `Option Err`, translating the source statement by
  statement: every `raise` site returns the state as it was at that point.
- Python strings are Lean `String`s; `str.strip`/`str.lower` are modelled
  on the ASCII fragment (the whitespace set {space, \t, \n, \v, \f, \r}
  and the A-Z case mapping), which covers every string the code compares
  against.
- Exception messages are kept verbatim where a claim depends on them
  (the list-of-strings message naming the field); messages that
  interpolate offending numeric values are modelled as their fixed text.
-/

/-- Model of a Python runtime value, as far as the code under
verification inspects values: integers, floats, strings and lists. -/
inductive PyVal where
  | intVal (n : Int)
  | floatVal (q : ℚ)
  | strVal (s : String)
  | listVal (xs : List PyVal)

/-- Model of `isinstance(item, str)`. -/
def PyVal.isStr : PyVal → Bool
  | .strVal _ => true
  | _ => false

/-- Model of `isinstance(item, (int, float))`. -/
def PyVal.isNum : PyVal → Bool
  | .intVal _ => true
  | .floatVal _ => true
  | _ => false

/-- Numeric value of an int/float `PyVal` (defaults to 0 on
non-numeric values; only ever applied after `isNum` validation). -/
def PyVal.toRat : PyVal → ℚ
  | .intVal n => (n : ℚ)
  | .floatVal q => q
  | _ => 0

/-- Model of the exception taxonomy of `src/exceptions.py` plus the
builtin `ValueError` used by the type validators in `src/WeatherApi.py`:
`ValidationError` is the base class, `LatitudeError` and `LongitudeError`
are its subclasses, and `ValueError` is outside this hierarchy. -/
inductive Err where
  | validationError (msg : String)
  | latitudeError (msg : String)
  | longitudeError (msg : String)
  | valueError (msg : String)
deriving DecidableEq, Repr

/-- Whether an exception is an instance of the `ValidationError` class
(directly or through the `LatitudeError`/`LongitudeError` subclasses).
The builtin `ValueError` is not part of that hierarchy. -/
def Err.isValidationError : Err → Bool
  | .validationError _ => true
  | .latitudeError _ => true
  | .longitudeError _ => true
  | .valueError _ => false

/- ### Python string primitives (ASCII fragment) -/

/-- The ASCII whitespace characters stripped by Python `str.strip()`:
space, tab, newline, vertical tab, form feed, carriage return. -/
def isPySpace (c : Char) : Bool :=
  c.toNat = 32 ∨ c.toNat = 9 ∨ c.toNat = 10 ∨ c.toNat = 11 ∨ c.toNat = 12 ∨ c.toNat = 13

/-- Python `str.lower()` on a single character (ASCII case mapping). -/
def pyCharLower (c : Char) : Char :=
  if 65 ≤ c.toNat ∧ c.toNat ≤ 90 then Char.ofNat (c.toNat + 32) else c

/-- Python `str.strip()` on the underlying character list: remove the
longest all-whitespace prefix and suffix. -/
def pyStripL (l : List Char) : List Char :=
  List.rdropWhile isPySpace (List.dropWhile isPySpace l)

/-- Python `str.strip()`. -/
def pyStrip (s : String) : String := ⟨pyStripL s.data⟩

/-- Python `str.lower()`. -/
def pyLower (s : String) : String := ⟨s.data.map pyCharLower⟩

/- ### src/helpers.py : constants -/

/-- `ERA5_START_YEAR = 1939` (datasets in CDS are available from 1939). -/
def ERA5_START_YEAR : Int := 1939

/-- `FIRST_MONTH = 1`. -/
def FIRST_MONTH : Int := 1

/-- `LAST_MONTH = 12`. -/
def LAST_MONTH : Int := 12

/-- `FIRST_DAY = 1`. -/
def FIRST_DAY : Int := 1

/-- `LAST_DAY = 31`. -/
def LAST_DAY : Int := 31

/-- `FIRST_HOUR = 0`. -/
def FIRST_HOUR : Int := 0

/-- `LAST_HOUR = 23`. -/
def LAST_HOUR : Int := 23

/- `ERA5_CURRENT_YEAR = datetime.now().year` is read from the system
clock; it is modelled as an explicit parameter `currentYear` wherever the
code reads it. -/

/-- Python `range(a, b)` over integers with step 1: the (possibly empty)
list `[a, a+1, ..., b-1]`. -/
def pyRange (a b : Int) : List Int :=
  (List.range (b - a).toNat).map (fun (i : Nat) => a + (i : Int))

/-- Python `f"{n:02d}"`: decimal rendering padded with leading zeros to
a minimum width of two characters. -/
def pad2 (n : Int) : String :=
  if 0 ≤ n ∧ n < 10 then "0" ++ toString n else toString n

namespace CDSFormatter

/-- `CDSFormatter.format_to_year_list`: `[str(year) for year in years]`. -/
def format_to_year_list (years : List Int) : List String :=
  years.map (fun year => toString year)

/-- `CDSFormatter.format_to_month_list`: zero-pad each month to two digits. -/
def format_to_month_list (months : List Int) : List String :=
  months.map pad2

/-- `CDSFormatter.format_to_day_list`: zero-pad each day to two digits. -/
def format_to_day_list (days : List Int) : List String :=
  days.map pad2

/-- `CDSFormatter.format_to_hour_list`: zero-pad each hour to two digits
and append the literal ":00" minute suffix. -/
def format_to_hour_list (hours : List Int) : List String :=
  hours.map (fun hour => pad2 hour ++ ":00")

/-- `CDSFormatter.year_range(start, stop)`, with the module-level
`ERA5_CURRENT_YEAR` (read from the system clock) passed explicitly as
`currentYear`.  Validation order as in the source: `start > stop` first,
then negativity, then the supported-year window. -/
def year_range (currentYear : Int) (start stop : Int) : Except Err (List String) :=
  if start > stop then
    .error (.validationError "Start year can\x27t be greater than stop year.")
  else if start < 0 ∨ stop < 0 then
    .error (.validationError "Years can\x27t be negative or zero.")
  else if ¬ (ERA5_START_YEAR ≤ start ∧ start ≤ stop ∧ stop ≤ currentYear) then
    .error (.validationError "Years must be between 1939-current.")
  else
    .ok (format_to_year_list (pyRange start (stop + 1)))

/-- `CDSFormatter.month_range(start, stop)`.  Validation order as in the
source: non-positive bounds first, then the upper bound; then the cyclic
split on `start <= stop`. -/
def month_range (start stop : Int) : Except Err (List String) :=
  if start ≤ 0 ∨ stop ≤ 0 then
    .error (.validationError "Months can\x27t be negative or zero.")
  else if start > LAST_MONTH ∨ stop > LAST_MONTH then
    .error (.validationError "Months must be between 1-12.")
  else if start ≤ stop then
    .ok (format_to_month_list (pyRange start (stop + 1)))
  else
    .ok (format_to_month_list (pyRange start 13 ++ pyRange 1 (stop + 1)))

/-- `CDSFormatter.day_range(start, stop)`.  Validation order as in the
source: `start > stop` first, then non-positive bounds, then the upper
bound; non-cyclic. -/
def day_range (start stop : Int) : Except Err (List String) :=
  if start > stop then
    .error (.validationError "Start day can\x27t be greater than stop day.")
  else if start ≤ 0 ∨ stop ≤ 0 then
    .error (.validationError "Days can\x27t be negative or zero.")
  else if start > LAST_DAY ∨ stop > LAST_DAY then
    .error (.validationError "Days must be between 1-31.")
  else
    .ok (format_to_day_list (pyRange start (stop + 1)))

/-- `CDSFormatter.time_range(start, stop)`.  Validation order as in the
source: negative bounds first, then the upper bound; then the cyclic
split on `start <= stop`. -/
def time_range (start stop : Int) : Except Err (List String) :=
  if start < 0 ∨ stop < 0 then
    .error (.validationError "Time can\x27t be negative.")
  else if start > LAST_HOUR ∨ stop > LAST_HOUR then
    .error (.validationError "Time must be between 0-23.")
  else if start ≤ stop then
    .ok (format_to_hour_list (pyRange start (stop + 1)))
  else
    .ok (format_to_hour_list (pyRange start (LAST_HOUR + 1) ++ pyRange FIRST_HOUR (stop + 1)))

end CDSFormatter

/- ### src/WeatherApi.py : the request descriptor -/

/-- The `WeatherApi` request descriptor: one fully-specified retrieval
request.  Fields exactly as assigned in `WeatherApi.__init__`; the six
parameter-list fields and `area` hold whatever Python value the builder
assigned (hence `PyVal`), while `dataset`, `data_format` and
`download_format` are plain strings. -/
structure WeatherApi where
  dataset : String

  product_type : PyVal
  variables_ : PyVal
  year : PyVal
  month : PyVal
  day : PyVal
  time : PyVal
  data_format : String
  download_format : String
  area : PyVal

/-- Shorthand for a Python list of strings. -/
def strList (xs : List String) : PyVal := .listVal (xs.map .strVal)

/-- `WeatherApi.__init__`: the factory defaults, field by field from the
source. -/
def WeatherApi.init : WeatherApi where
  dataset := "reanalysis-era5-single-levels"
  product_type := strList ["reanalysis"]
  variables_ := strList
    ["10m_u_component_of_wind",
     "10m_v_component_of_wind",
     "2m_dewpoint_temperature",
     "2m_temperature",
     "total_precipitation"]
  year := strList ["2025"]
  month := strList ["01", "02", "03"]
  day := strList
    ["01", "02", "03", "04", "05", "06", "07", "08", "09", "10",
     "11", "12", "13", "14", "15", "16", "17", "18", "19", "20",
     "21", "22", "23", "24", "25", "26", "27", "28", "29", "30", "31"]
  time := strList
    ["00:00", "01:00", "02:00", "03:00", "04:00", "05:00",
     "06:00", "07:00", "08:00", "09:00", "10:00", "11:00",
     "12:00", "13:00", "14:00", "15:00", "16:00", "17:00",
     "18:00", "19:00", "20:00", "21:00", "22:00", "23:00"]
  data_format := "netcdf"
  download_format := "unarchived"
  area := .listVal [.intVal 40, .intVal 60, .intVal 0, .intVal 100]

/- ### src/WeatherApi.py : the request builder

Each setter of `RequestBuilder` mutates the one descriptor the builder
owns and returns `self`.  A setter is embedded as a function
`WeatherApi → input → WeatherApi × Option Err`, translated statement by
statement: every `raise` site returns the descriptor state as it stood at
that statement (no assignment has happened yet at any raise site in the
source), and the final assignment produces the updated state. -/

namespace RequestBuilder

/-- The message `f"'{field}' must be a list of strings"`. -/
def listOfStringsMsg (field : String) : String :=
  "\x27" ++ field ++ "\x27 must be a list of strings"

/-- `RequestBuilder._validate_list_of_strings`: raises `ValueError`
unless `data` is a list whose every element is a string. -/
def validate_list_of_strings (data : PyVal) (field : String) : Option Err :=
  match data with
  | .listVal xs =>
      if xs.all PyVal.isStr then none else some (.valueError (listOfStringsMsg field))
  | _ => some (.valueError (listOfStringsMsg field))

/-- `RequestBuilder._validate_list_of_numbers`: raises `ValueError`
unless `data` is a list whose every element is an int or a float. -/
def validate_list_of_numbers (data : PyVal) : Option Err :=
  match data with
  | .listVal xs =>
      if xs.all PyVal.isNum then none
      else some (.valueError "The list must contain integer or float type elements only.")
  | _ => some (.valueError "The list must contain integer or float type elements only.")

/-- `RequestBuilder.dataset`: assigns unconditionally (no validation). -/
def dataset_set (st : WeatherApi) (v : String) : WeatherApi × Option Err :=
  ({ st with dataset := v }, none)

/-- `RequestBuilder.product_type`. -/
def product_type (st : WeatherApi) (v : PyVal) : WeatherApi × Option Err :=
  match validate_list_of_strings v "product_type" with
  | some e => (st, some e)
  | none => ({ st with product_type := v }, none)

/-- `RequestBuilder.variables` (the source name `variables` is a reserved
token in Lean, hence the trailing underscore). -/
def variables_ (st : WeatherApi) (v : PyVal) : WeatherApi × Option Err :=
  match validate_list_of_strings v "variables" with
  | some e => (st, some e)
  | none => ({ st with variables_ := v }, none)

/-- `RequestBuilder.year`. -/
def year (st : WeatherApi) (v : PyVal) : WeatherApi × Option Err :=
  match validate_list_of_strings v "year" with
  | some e => (st, some e)
  | none => ({ st with year := v }, none)

/-- `RequestBuilder.month`. -/
def month (st : WeatherApi) (v : PyVal) : WeatherApi × Option Err :=
  match validate_list_of_strings v "month" with
  | some e => (st, some e)
  | none => ({ st with month := v }, none)

/-- `RequestBuilder.day`. -/
def day (st : WeatherApi) (v : PyVal) : WeatherApi × Option Err :=
  match validate_list_of_strings v "day" with
  | some e => (st, some e)
  | none => ({ st with day := v }, none)

/-- `RequestBuilder.time`. -/
def time (st : WeatherApi) (v : PyVal) : WeatherApi × Option Err :=
  match validate_list_of_strings v "time" with
  | some e => (st, some e)
  | none => ({ st with time := v }, none)

/-- `RequestBuilder.year_range`: delegates to `CDSFormatter.year_range`
(the formatter call happens before the assignment, so a formatter error
leaves the descriptor untouched).  `currentYear` models the module-level
`ERA5_CURRENT_YEAR`. -/
def year_range (currentYear : Int) (st : WeatherApi) (start stop : Int) :
    WeatherApi × Option Err :=
  match CDSFormatter.year_range currentYear start stop with
  | .ok ys => ({ st with year := strList ys }, none)
  | .error e => (st, some e)

/-- `RequestBuilder.month_range`: delegates to `CDSFormatter.month_range`. -/
def month_range (st : WeatherApi) (start stop : Int) : WeatherApi × Option Err :=
  match CDSFormatter.month_range start stop with
  | .ok ms => ({ st with month := strList ms }, none)
  | .error e => (st, some e)

/-- `RequestBuilder.day_range`: delegates to `CDSFormatter.day_range`. -/
def day_range (st : WeatherApi) (start stop : Int) : WeatherApi × Option Err :=
  match CDSFormatter.day_range start stop with
  | .ok ds => ({ st with day := strList ds }, none)
  | .error e => (st, some e)

/-- `RequestBuilder.time_range`: delegates to `CDSFormatter.time_range`. -/
def time_range (st : WeatherApi) (start stop : Int) : WeatherApi × Option Err :=
  match CDSFormatter.time_range start stop with
  | .ok ts => ({ st with time := strList ts }, none)
  | .error e => (st, some e)

/-- `RequestBuilder.data_format`: normalizes with `.strip().lower()`,
re-normalizes inside the membership test exactly as the source does
(`data_format.lower().strip() not in allowed`), raises a
`ValidationError` when the test fails, otherwise assigns the normalized
value. -/
def data_format (st : WeatherApi) (v : String) : WeatherApi × Option Err :=
  let cleaned := pyLower (pyStrip v)
  if pyStrip (pyLower cleaned) ∉ ["netcdf", "grib"] then
    (st, some (.validationError ("Invalid data_format " ++ cleaned ++
      ". Data format must be one of \x27netcdf\x27, \x27grib\x27.")))
  else
    ({ st with data_format := cleaned }, none)

/-- `RequestBuilder.download_format`: same shape as `data_format` with
the allowed set `["unarchived", "zip"]`. -/
def download_format (st : WeatherApi) (v : String) : WeatherApi × Option Err :=
  let cleaned := pyLower (pyStrip v)
  if pyStrip (pyLower cleaned) ∉ ["unarchived", "zip"] then
    (st, some (.validationError ("Invalid download_format " ++ cleaned ++
      ". Downlaod format must be one of \x27unarchived\x27, \x27zip\x27.")))
  else
    ({ st with download_format := cleaned }, none)

/-- `RequestBuilder.area`: type validation (`_validate_list_of_numbers`),
then the length-4 check, then destructuring `n, w, s, e = area`, then the
latitude check, then the longitude check, then the assignment — in
exactly the source order. -/
def area (st : WeatherApi) (v : PyVal) : WeatherApi × Option Err :=
  match validate_list_of_numbers v with
  | some e => (st, some e)
  | none =>
    match v with
    | .listVal [a, b, c, d] =>
        let n := a.toRat
        let w := b.toRat
        let s := c.toRat
        let e := d.toRat
        if ¬ (-90 ≤ s ∧ s ≤ n ∧ n ≤ 90) then
          (st, some (.latitudeError "North must be >= South and both within [-90, 90]"))
        else if ¬ (-180 ≤ w ∧ w ≤ e ∧ e ≤ 180) then
          (st, some (.longitudeError "East must be >= West and both within [-180, 180]"))
        else
          ({ st with area := v }, none)
    | _ => (st, some (.validationError "BoundingBox must have exactly 4 values: [N, W, S, E]"))

end RequestBuilder

/- ### Object identity model for the builder

Python objects live on a heap and variables hold references.  The
builder's `__init__` allocates one `WeatherApi` object and stores its
reference in `self._request`; every setter writes through that reference
(in-place attribute assignment), and `build()` returns the reference
itself, never allocating.  The heap is modelled as a list of descriptor
objects addressed by index. -/

/-- A reference to a heap-allocated `WeatherApi` object. -/
abbrev Ref := Nat

/-- The heap of allocated `WeatherApi` objects. -/
structure Heap where
  cells : List WeatherApi

/-- Dereference (out-of-range reads never occur in the modelled runs). -/
def Heap.get (h : Heap) (r : Ref) : WeatherApi :=
  h.cells.getD r WeatherApi.init

/-- Write through a reference (in-place mutation of one object). -/
def Heap.put (h : Heap) (r : Ref) (w : WeatherApi) : Heap :=
  ⟨h.cells.set r w⟩

/-- Allocate a fresh object, returning its reference. -/
def Heap.alloc (h : Heap) (w : WeatherApi) : Heap × Ref :=
  (⟨h.cells ++ [w]⟩, h.cells.length)

/-- A `RequestBuilder` object: it holds the reference `self._request`. -/
structure BuilderObj where
  req : Ref

/-- `RequestBuilder.__init__`: allocates `WeatherApi()` and stores the
reference. -/
def RequestBuilder.mkNew (h : Heap) : Heap × BuilderObj :=
  let p := h.alloc WeatherApi.init
  (p.1, ⟨p.2⟩)

/-- Run one value-level setter through the builder's reference: read the
object, apply the setter, write the (possibly unchanged) object back in
place.  No allocation happens. -/
def RequestBuilder.runOn (h : Heap) (b : BuilderObj)
    (f : WeatherApi → WeatherApi × Option Err) : Heap × Option Err :=
  let p := f (h.get b.req)
  (h.put b.req p.1, p.2)

/-- `RequestBuilder.build()`: `return self._request` — returns the stored
reference itself; it does not clone and performs no validation. -/
def RequestBuilder.build (b : BuilderObj) : Ref := b.req

/- ### Field frames -/

/-- The ten fields of the request descriptor. -/
inductive FieldTag where
  | dataset | product_type | variables_ | year | month | day | time
  | data_format | download_format | area
deriving DecidableEq, Repr

/-- The value of one descriptor field, with the plain-string fields
injected into `PyVal` so all fields compare in one type. -/
def fieldVal : FieldTag → WeatherApi → PyVal
  | .dataset, w => .strVal w.dataset
  | .product_type, w => w.product_type
  | .variables_, w => w.variables_
  | .year, w => w.year
  | .month, w => w.month
  | .day, w => w.day
  | .time, w => w.time
  | .data_format, w => .strVal w.data_format
  | .download_format, w => .strVal w.download_format
  | .area, w => w.area

/-- Two descriptors agree on every field other than `t`. -/
def eqExcept (t : FieldTag) (a b : WeatherApi) : Prop :=
  ∀ u : FieldTag, u ≠ t → fieldVal u a = fieldVal u b

/- ### Normalization lemmas for `strip`/`lower` -/

theorem toNat_ofNatAux (n : Nat) (h : n.isValidChar) :
    (Char.ofNatAux n h).toNat = n := rfl

theorem toNat_ofNat_valid (n : Nat) (h : n < 55296) : (Char.ofNat n).toNat = n := by
  have hv : n.isValidChar := Or.inl h
  simp [Char.ofNat, hv]
  exact toNat_ofNatAux n hv

theorem pyCharLower_idem (c : Char) : pyCharLower (pyCharLower c) = pyCharLower c := by
  unfold pyCharLower
  split
  · next h =>
    have ht : (Char.ofNat (c.toNat + 32)).toNat = c.toNat + 32 :=
      toNat_ofNat_valid _ (by omega)
    rw [if_neg (by omega)]
  · rfl

theorem isPySpace_pyCharLower (c : Char) : isPySpace (pyCharLower c) = isPySpace c := by
  unfold pyCharLower
  split
  · next h =>
    have ht : (Char.ofNat (c.toNat + 32)).toNat = c.toNat + 32 :=
      toNat_ofNat_valid _ (by omega)
    unfold isPySpace
    rw [ht, decide_eq_decide]
    omega
  · rfl

theorem pyLowerL_idem (l : List Char) :
    (l.map pyCharLower).map pyCharLower = l.map pyCharLower := by
  rw [List.map_map]
  exact List.map_congr_left fun c _ => pyCharLower_idem c

theorem dropWhile_map_lower (l : List Char) :
    List.dropWhile isPySpace (l.map pyCharLower) =
      (List.dropWhile isPySpace l).map pyCharLower := by
  have hfun : (isPySpace ∘ pyCharLower) = isPySpace :=
    funext fun c => isPySpace_pyCharLower c
  rw [List.dropWhile_map, hfun]

theorem rdropWhile_map_lower (l : List Char) :
    List.rdropWhile isPySpace (l.map pyCharLower) =
      (List.rdropWhile isPySpace l).map pyCharLower := by
  unfold List.rdropWhile
  rw [← List.map_reverse, dropWhile_map_lower, List.map_reverse]

theorem pyStripL_map_lower (l : List Char) :
    pyStripL (l.map pyCharLower) = (pyStripL l).map pyCharLower := by
  unfold pyStripL
  rw [dropWhile_map_lower, rdropWhile_map_lower]

theorem dropWhile_rdropWhile_dropWhile (l : List Char) :
    List.dropWhile isPySpace
        (List.rdropWhile isPySpace (List.dropWhile isPySpace l)) =
      List.rdropWhile isPySpace (List.dropWhile isPySpace l) := by
  set m := List.dropWhile isPySpace l with hm
  have hmm : List.dropWhile isPySpace m = m := by
    rw [hm]
    exact List.dropWhile_idempotent ..
  have hpre : List.rdropWhile isPySpace m <+: m := List.rdropWhile_prefix ..
  apply List.dropWhile_eq_self_iff.mpr
  intro hl
  have hm0 : 0 < m.length := lt_of_lt_of_le hl hpre.length_le
  have hget : (List.rdropWhile isPySpace m).get ⟨0, hl⟩ = m.get ⟨0, hm0⟩ := by
    simpa using List.IsPrefix.getElem hpre hl
  rw [hget]
  exact List.dropWhile_eq_self_iff.mp hmm hm0

theorem pyStripL_idem (l : List Char) : pyStripL (pyStripL l) = pyStripL l := by
  unfold pyStripL
  rw [dropWhile_rdropWhile_dropWhile]
  exact List.rdropWhile_idempotent ..

/-- Re-normalizing an already normalized string is the identity: this is
why the source's membership test `value.lower().strip()` applied to the
already `.strip().lower()`-ed value tests exactly that value. -/
theorem norm2_eq (v : String) :
    pyStrip (pyLower (pyLower (pyStrip v))) = pyLower (pyStrip v) := by
  unfold pyStrip pyLower
  simp only
  rw [pyLowerL_idem, pyStripL_map_lower, pyStripL_idem]

/- ### Specification-side definitions

These definitions follow the wording of the specification (not the
source); the claim theorems compare the embedded source functions against
them. -/

/-- Modelled from the spec: the inclusive linear range `[a..b]`
(empty when `b < a`). -/
def inclusiveRange (a b : Int) : List Int :=
  (List.range (b + 1 - a).toNat).map (fun (i : Nat) => a + (i : Int))

/-- Modelled from the spec: the month sequence — linear `[start..stop]`
when `start ≤ stop`, wrapped `[start..12] ++ [1..stop]` otherwise. -/
def specMonthSeq (start stop : Int) : List Int :=
  if start ≤ stop then inclusiveRange start stop
  else inclusiveRange start 12 ++ inclusiveRange 1 stop

/-- Modelled from the spec: the hour sequence — linear `[start..stop]`
when `start ≤ stop`, wrapped `[start..23] ++ [0..stop]` otherwise. -/
def specHourSeq (start stop : Int) : List Int :=
  if start ≤ stop then inclusiveRange start stop
  else inclusiveRange start 23 ++ inclusiveRange 0 stop

/- ### Descriptor validity (the invariant of claim C10) -/

/-- `data` is a Python list whose every element is a string. -/
def isListOfStrings : PyVal → Bool
  | .listVal xs => xs.all PyVal.isStr
  | _ => false

/-- `data` is a Python list of exactly four numbers `[N, W, S, E]` with
`-90 ≤ S ≤ N ≤ 90` and `-180 ≤ W ≤ E ≤ 180`. -/
def validArea : PyVal → Bool
  | .listVal [a, b, c, d] =>
      a.isNum && b.isNum && c.isNum && d.isNum &&
      decide (-90 ≤ c.toRat) && decide (c.toRat ≤ a.toRat) && decide (a.toRat ≤ 90) &&
      decide (-180 ≤ b.toRat) && decide (b.toRat ≤ d.toRat) && decide (d.toRat ≤ 180)
  | _ => false

/-- The validity predicate on descriptors: the six parameter fields are
lists of strings, the two format fields are in their closed enums, and
the area is a valid bounding box. -/
def ValidW (w : WeatherApi) : Bool :=
  isListOfStrings w.product_type && isListOfStrings w.variables_ &&
  isListOfStrings w.year && isListOfStrings w.month &&
  isListOfStrings w.day && isListOfStrings w.time &&
  (w.data_format == "netcdf" || w.data_format == "grib") &&
  (w.download_format == "unarchived" || w.download_format == "zip") &&
  validArea w.area

/-- One successful setter call on the builder's descriptor. -/
inductive Step : WeatherApi → WeatherApi → Prop where
  | dataset_set (st : WeatherApi) (v : String) (st2 : WeatherApi) :
      RequestBuilder.dataset_set st v = (st2, none) → Step st st2
  | product_type (st : WeatherApi) (v : PyVal) (st2 : WeatherApi) :
      RequestBuilder.product_type st v = (st2, none) → Step st st2
  | variables_ (st : WeatherApi) (v : PyVal) (st2 : WeatherApi) :
      RequestBuilder.variables_ st v = (st2, none) → Step st st2
  | year (st : WeatherApi) (v : PyVal) (st2 : WeatherApi) :
      RequestBuilder.year st v = (st2, none) → Step st st2
  | month (st : WeatherApi) (v : PyVal) (st2 : WeatherApi) :
      RequestBuilder.month st v = (st2, none) → Step st st2
  | day (st : WeatherApi) (v : PyVal) (st2 : WeatherApi) :
      RequestBuilder.day st v = (st2, none) → Step st st2
  | time (st : WeatherApi) (v : PyVal) (st2 : WeatherApi) :
      RequestBuilder.time st v = (st2, none) → Step st st2
  | year_range (currentYear : Int) (st : WeatherApi) (start stop : Int) (st2 : WeatherApi) :
      RequestBuilder.year_range currentYear st start stop = (st2, none) → Step st st2
  | month_range (st : WeatherApi) (start stop : Int) (st2 : WeatherApi) :
      RequestBuilder.month_range st start stop = (st2, none) → Step st st2
  | day_range (st : WeatherApi) (start stop : Int) (st2 : WeatherApi) :
      RequestBuilder.day_range st start stop = (st2, none) → Step st st2
  | time_range (st : WeatherApi) (start stop : Int) (st2 : WeatherApi) :
      RequestBuilder.time_range st start stop = (st2, none) → Step st st2
  | data_format (st : WeatherApi) (v : String) (st2 : WeatherApi) :
      RequestBuilder.data_format st v = (st2, none) → Step st st2
  | download_format (st : WeatherApi) (v : String) (st2 : WeatherApi) :
      RequestBuilder.download_format st v = (st2, none) → Step st st2
  | area (st : WeatherApi) (v : PyVal) (st2 : WeatherApi) :
      RequestBuilder.area st v = (st2, none) → Step st st2

/-- Descriptor states reachable from the constructor defaults by
successful setter calls. -/
inductive Reachable : WeatherApi → Prop where
  | init : Reachable WeatherApi.init
  | step (st st2 : WeatherApi) : Reachable st → Step st st2 → Reachable st2

/- ### Shared small lemmas -/

theorem inclusiveRange_eq_pyRange (a b : Int) : inclusiveRange a b = pyRange a (b + 1) := rfl

/- ### Claim theorems -/

/-- C1: for all integers `start`, `stop` with `1 ≤ start ≤ 12` and
`1 ≤ stop ≤ 12`, `month_range(start, stop)` returns the inclusive linear
range `[start..stop]` when `start ≤ stop` and the wrapped range
`[start..12] ++ [1..stop]` when `start > stop`, each value rendered as a
two-digit zero-padded string; it fails with a validation error exactly
when either bound is `≤ 0` or `> 12`; and
`month_range(9, 4) = ["09","10","11","12","01","02","03","04"]`. -/
theorem C1_month_range_correct :
    (∀ start stop : Int, 1 ≤ start → start ≤ 12 → 1 ≤ stop → stop ≤ 12 →
      CDSFormatter.month_range start stop =
        .ok ((specMonthSeq start stop).map pad2)) ∧
    (∀ start stop : Int,
      (∃ e, CDSFormatter.month_range start stop = .error e ∧ e.isValidationError = true) ↔
        (start ≤ 0 ∨ 12 < start ∨ stop ≤ 0 ∨ 12 < stop)) ∧
    CDSFormatter.month_range 9 4 =
      .ok ["09", "10", "11", "12", "01", "02", "03", "04"] := by
  refine ⟨?_, ?_, ?_⟩
  · intro start stop h1 h2 h3 h4
    unfold CDSFormatter.month_range specMonthSeq
    rw [if_neg (by omega), if_neg (by unfold LAST_MONTH; omega)]
    by_cases hc : start ≤ stop
    · rw [if_pos hc, if_pos hc, inclusiveRange_eq_pyRange]
      rfl
    · rw [if_neg hc, if_neg hc, inclusiveRange_eq_pyRange, inclusiveRange_eq_pyRange]
      unfold CDSFormatter.format_to_month_list
      rw [List.map_append]
      norm_num
  · intro start stop
    unfold CDSFormatter.month_range
    constructor
    · rintro ⟨e, he, hv⟩
      by_contra hb
      rw [if_neg (by omega), if_neg (by unfold LAST_MONTH; omega)] at he
      split at he <;> exact Except.noConfusion he
    · intro hb
      rcases le_or_lt start 0 with h | h
      · exact ⟨.validationError "Months can\x27t be negative or zero.",
          by rw [if_pos (Or.inl h)], rfl⟩
      · rcases le_or_lt stop 0 with h2 | h2
        · exact ⟨.validationError "Months can\x27t be negative or zero.",
            by rw [if_pos (Or.inr h2)], rfl⟩
        · have hup : start > LAST_MONTH ∨ stop > LAST_MONTH := by
            unfold LAST_MONTH; omega
          exact ⟨.validationError "Months must be between 1-12.",
            by rw [if_neg (by omega), if_pos hup], rfl⟩
  · rfl

/-- Witness for C1 at the concrete wraparound input (9, 4). -/
theorem C1_month_range_correct_witness :
    CDSFormatter.month_range 9 4 = .ok ((specMonthSeq 9 4).map pad2) :=
  C1_month_range_correct.1 9 4 (by norm_num) (by norm_num) (by norm_num) (by norm_num)

/-- C2: for all integers `start`, `stop` with `0 ≤ start ≤ 23` and
`0 ≤ stop ≤ 23`, `time_range(start, stop)` returns the inclusive linear
range when `start ≤ stop` and the wrapped range `[start..23] ++ [0..stop]`
when `start > stop`, each hour zero-padded to two digits with the literal
":00" suffix; it fails with a validation error exactly when either bound
is negative or `> 23`; `time_range(12, 1)` has the 14 entries
`["12:00",...,"23:00","00:00","01:00"]` and `time_range(0, 12)` has 13
entries. -/
theorem C2_time_range_correct :
    (∀ start stop : Int, 0 ≤ start → start ≤ 23 → 0 ≤ stop → stop ≤ 23 →
      CDSFormatter.time_range start stop =
        .ok ((specHourSeq start stop).map (fun hr => pad2 hr ++ ":00"))) ∧
    (∀ start stop : Int,
      (∃ e, CDSFormatter.time_range start stop = .error e ∧ e.isValidationError = true) ↔
        (start < 0 ∨ 23 < start ∨ stop < 0 ∨ 23 < stop)) ∧
    (∃ l, CDSFormatter.time_range 12 1 = .ok l ∧
      l = ["12:00", "13:00", "14:00", "15:00", "16:00", "17:00", "18:00", "19:00",
           "20:00", "21:00", "22:00", "23:00", "00:00", "01:00"] ∧ l.length = 14) ∧
    (∃ l, CDSFormatter.time_range 0 12 = .ok l ∧
      l = ["00:00", "01:00", "02:00", "03:00", "04:00", "05:00", "06:00",
           "07:00", "08:00", "09:00", "10:00", "11:00", "12:00"] ∧ l.length = 13) := by
  refine ⟨?_, ?_, ⟨_, rfl, rfl, rfl⟩, ⟨_, rfl, rfl, rfl⟩⟩
  · intro start stop h1 h2 h3 h4
    unfold CDSFormatter.time_range specHourSeq
    rw [if_neg (by omega), if_neg (by unfold LAST_HOUR; omega)]
    by_cases hc : start ≤ stop
    · rw [if_pos hc, if_pos hc, inclusiveRange_eq_pyRange]
      rfl
    · rw [if_neg hc, if_neg hc, inclusiveRange_eq_pyRange, inclusiveRange_eq_pyRange]
      unfold LAST_HOUR FIRST_HOUR
      rfl
  · intro start stop
    unfold CDSFormatter.time_range
    constructor
    · rintro ⟨e, he, hv⟩
      by_contra hb
      rw [if_neg (by omega), if_neg (by unfold LAST_HOUR; omega)] at he
      split at he <;> exact Except.noConfusion he
    · intro hb
      rcases lt_or_le start 0 with h | h
      · exact ⟨.validationError "Time can\x27t be negative.",
          by rw [if_pos (Or.inl h)], rfl⟩
      · rcases lt_or_le stop 0 with h2 | h2
        · exact ⟨.validationError "Time can\x27t be negative.",
            by rw [if_pos (Or.inr h2)], rfl⟩
        · have hup : start > LAST_HOUR ∨ stop > LAST_HOUR := by
            unfold LAST_HOUR; omega
          exact ⟨.validationError "Time must be between 0-23.",
            by rw [if_neg (by omega), if_pos hup], rfl⟩

/-- Witness for C2 at the concrete wraparound input (12, 1). -/
theorem C2_time_range_correct_witness :
    CDSFormatter.time_range 12 1 =
      .ok ((specHourSeq 12 1).map (fun hr => pad2 hr ++ ":00")) :=
  C2_time_range_correct.1 12 1 (by norm_num) (by norm_num) (by norm_num) (by norm_num)

/-- Every day value in 1..31 renders as exactly two characters. -/
theorem pad2_length_two (n : Int) (h1 : 1 ≤ n) (h2 : n ≤ 31) : (pad2 n).length = 2 := by
  interval_cases n <;> decide

/-- C8: for all integers `start`, `stop`, `day_range(start, stop)` fails
with a validation error if `start > stop` and fails if either bound is
`≤ 0` or `> 31`; otherwise it returns the inclusive non-cyclic range
`[start..stop]` with each day rendered as a two-digit zero-padded string
(so the output length is the inclusive count of steps and every element
has the fixed two-character width). -/
theorem C8_day_range_correct :
    (∀ start stop : Int, start > stop →
      ∃ e, CDSFormatter.day_range start stop = .error e ∧ e.isValidationError = true) ∧
    (∀ start stop : Int, (start ≤ 0 ∨ stop ≤ 0 ∨ 31 < start ∨ 31 < stop) →
      ∃ e, CDSFormatter.day_range start stop = .error e ∧ e.isValidationError = true) ∧
    (∀ start stop : Int, start ≤ stop → 1 ≤ start → stop ≤ 31 →
      CDSFormatter.day_range start stop = .ok ((inclusiveRange start stop).map pad2) ∧
      ∀ l, CDSFormatter.day_range start stop = .ok l →
        l.length = (stop + 1 - start).toNat ∧ ∀ x ∈ l, x.length = 2) := by
  refine ⟨?_, ?_, ?_⟩
  · intro start stop h
    exact ⟨.validationError "Start day can\x27t be greater than stop day.",
      by unfold CDSFormatter.day_range; rw [if_pos h], rfl⟩
  · intro start stop h
    unfold CDSFormatter.day_range
    by_cases h0 : start > stop
    · exact ⟨.validationError "Start day can\x27t be greater than stop day.",
        by rw [if_pos h0], rfl⟩
    · rcases le_or_lt start 0 with h1 | h1
      · exact ⟨.validationError "Days can\x27t be negative or zero.",
          by rw [if_neg h0, if_pos (Or.inl h1)], rfl⟩
      · rcases le_or_lt stop 0 with h2 | h2
        · exact ⟨.validationError "Days can\x27t be negative or zero.",
            by rw [if_neg h0, if_pos (Or.inr h2)], rfl⟩
        · have hup : start > LAST_DAY ∨ stop > LAST_DAY := by
            unfold LAST_DAY; omega
          exact ⟨.validationError "Days must be between 1-31.",
            by rw [if_neg h0, if_neg (by omega), if_pos hup], rfl⟩
  · intro start stop hc h1 h2
    have hok : CDSFormatter.day_range start stop =
        .ok ((inclusiveRange start stop).map pad2) := by
      unfold CDSFormatter.day_range
      rw [if_neg (by omega), if_neg (by omega),
        if_neg (by unfold LAST_DAY; omega), inclusiveRange_eq_pyRange]
      rfl
    refine ⟨hok, ?_⟩
    intro l hl
    rw [hok] at hl
    have hleq : l = (inclusiveRange start stop).map pad2 := (Except.ok.inj hl).symm
    subst hleq
    constructor
    · rw [List.length_map]
      unfold inclusiveRange
      rw [List.length_map, List.length_range]
    · intro x hx
      simp only [inclusiveRange, List.map_map, List.mem_map, List.mem_range,
        Function.comp] at hx
      obtain ⟨i, hi, rfl⟩ := hx
      exact pad2_length_two _ (by omega) (by omega)

/-- Witness for C8 at the concrete input (1, 31). -/
theorem C8_day_range_correct_witness :
    CDSFormatter.day_range 1 31 = .ok ((inclusiveRange 1 31).map pad2) :=
  (C8_day_range_correct.2.2 1 31 (by norm_num) (by norm_num) (by norm_num)).1

/-- C6: for all integers `start`, `stop` (and any value `currentYear` of
the clock-dependent constant), `year_range(start, stop)` fails with a
validation error if `start > stop`, fails if either bound is negative,
and succeeds exactly when
`ERA5_START_YEAR (= 1939) ≤ start ≤ stop ≤ currentYear`, in which case it
returns the inclusive enumeration rendered as decimal strings; in
particular `year_range(2020, 2019)` and `year_range(1900, 2000)` fail
with a validation error whatever the current year is. -/
theorem C6_year_range_correct :
    ERA5_START_YEAR = 1939 ∧
    (∀ currentYear start stop : Int, start > stop →
      ∃ e, CDSFormatter.year_range currentYear start stop = .error e ∧
        e.isValidationError = true) ∧
    (∀ currentYear start stop : Int, start < 0 ∨ stop < 0 →
      ∃ e, CDSFormatter.year_range currentYear start stop = .error e ∧
        e.isValidationError = true) ∧
    (∀ currentYear start stop : Int,
      (∃ l, CDSFormatter.year_range currentYear start stop = .ok l) ↔
        (ERA5_START_YEAR ≤ start ∧ start ≤ stop ∧ stop ≤ currentYear)) ∧
    (∀ currentYear start stop : Int,
      ERA5_START_YEAR ≤ start → start ≤ stop → stop ≤ currentYear →
      CDSFormatter.year_range currentYear start stop =
        .ok ((inclusiveRange start stop).map (fun y => toString y))) ∧
    (∀ currentYear start stop e,
      CDSFormatter.year_range currentYear start stop = .error e →
        e.isValidationError = true) ∧
    (∀ currentYear : Int,
      ∃ e, CDSFormatter.year_range currentYear 2020 2019 = .error e ∧
        e.isValidationError = true) ∧
    (∀ currentYear : Int,
      ∃ e, CDSFormatter.year_range currentYear 1900 2000 = .error e ∧
        e.isValidationError = true) := by
  have hok : ∀ currentYear start stop : Int,
      ERA5_START_YEAR ≤ start → start ≤ stop → stop ≤ currentYear →
      CDSFormatter.year_range currentYear start stop =
        .ok ((inclusiveRange start stop).map (fun y => toString y)) := by
    intro currentYear start stop h1 h2 h3
    unfold CDSFormatter.year_range
    unfold ERA5_START_YEAR at h1
    rw [if_neg (by omega), if_neg (by omega),
      if_neg (by unfold ERA5_START_YEAR; omega), inclusiveRange_eq_pyRange]
    rfl
  have herr : ∀ currentYear start stop e,
      CDSFormatter.year_range currentYear start stop = .error e →
        e.isValidationError = true := by
    intro currentYear start stop e he
    unfold CDSFormatter.year_range at he
    split at he
    · cases he
      rfl
    · split at he
      · cases he
        rfl
      · split at he
        · cases he
          rfl
        · exact Except.noConfusion he
  refine ⟨rfl, ?_, ?_, ?_, hok, herr, ?_, ?_⟩
  · intro currentYear start stop h
    exact ⟨.validationError "Start year can\x27t be greater than stop year.",
      by unfold CDSFormatter.year_range; rw [if_pos h], rfl⟩
  · intro currentYear start stop h
    unfold CDSFormatter.year_range
    by_cases h0 : start > stop
    · exact ⟨.validationError "Start year can\x27t be greater than stop year.",
        by rw [if_pos h0], rfl⟩
    · exact ⟨.validationError "Years can\x27t be negative or zero.",
        by rw [if_neg h0, if_pos h], rfl⟩
  · intro currentYear start stop
    constructor
    · rintro ⟨l, hl⟩
      by_contra hb
      unfold CDSFormatter.year_range at hl
      unfold ERA5_START_YEAR at hb
      by_cases h0 : start > stop
      · rw [if_pos h0] at hl
        exact Except.noConfusion hl
      · by_cases h1 : start < 0 ∨ stop < 0
        · rw [if_neg h0, if_pos h1] at hl
          exact Except.noConfusion hl
        · rw [if_neg h0, if_neg h1,
            if_pos (by unfold ERA5_START_YEAR; omega)] at hl
          exact Except.noConfusion hl
    · rintro ⟨h1, h2, h3⟩
      exact ⟨_, hok currentYear start stop h1 h2 h3⟩
  · intro currentYear
    exact ⟨.validationError "Start year can\x27t be greater than stop year.",
      by unfold CDSFormatter.year_range; rw [if_pos (by norm_num)], rfl⟩
  · intro currentYear
    unfold CDSFormatter.year_range
    exact ⟨.validationError "Years must be between 1939-current.",
      by rw [if_neg (by norm_num), if_neg (by norm_num),
        if_pos (by unfold ERA5_START_YEAR; norm_num)], rfl⟩

/-- Witness for C6 at `currentYear = 2025`, `(start, stop) = (1939, 1941)`. -/
theorem C6_year_range_correct_witness :
    CDSFormatter.year_range 2025 1939 1941 =
      .ok ((inclusiveRange 1939 1941).map (fun y => toString y)) :=
  C6_year_range_correct.2.2.2.2.1 2025 1939 1941 (by decide) (by norm_num) (by norm_num)

/- ### Builder setter characterizations -/

/-- `data` is a Python list whose every element is an int or a float. -/
def isListOfNumbers : PyVal → Bool
  | .listVal xs => xs.all PyVal.isNum
  | _ => false

theorem validate_strings_eq (v : PyVal) (f : String) :
    RequestBuilder.validate_list_of_strings v f =
      (if isListOfStrings v then none
       else some (.valueError (RequestBuilder.listOfStringsMsg f))) := by
  cases v <;> rfl

theorem validate_numbers_eq (v : PyVal) :
    RequestBuilder.validate_list_of_numbers v =
      (if isListOfNumbers v then none
       else some (.valueError "The list must contain integer or float type elements only.")) := by
  cases v <;> rfl

theorem product_type_eq (st : WeatherApi) (v : PyVal) :
    RequestBuilder.product_type st v =
      (if isListOfStrings v then ({ st with product_type := v }, none)
       else (st, some (.valueError (RequestBuilder.listOfStringsMsg "product_type")))) := by
  unfold RequestBuilder.product_type
  rw [validate_strings_eq]
  by_cases h : isListOfStrings v <;> simp [h]

theorem variables_eq (st : WeatherApi) (v : PyVal) :
    RequestBuilder.variables_ st v =
      (if isListOfStrings v then ({ st with variables_ := v }, none)
       else (st, some (.valueError (RequestBuilder.listOfStringsMsg "variables")))) := by
  unfold RequestBuilder.variables_
  rw [validate_strings_eq]
  by_cases h : isListOfStrings v <;> simp [h]

theorem year_eq (st : WeatherApi) (v : PyVal) :
    RequestBuilder.year st v =
      (if isListOfStrings v then ({ st with year := v }, none)
       else (st, some (.valueError (RequestBuilder.listOfStringsMsg "year")))) := by
  unfold RequestBuilder.year
  rw [validate_strings_eq]
  by_cases h : isListOfStrings v <;> simp [h]

theorem month_eq (st : WeatherApi) (v : PyVal) :
    RequestBuilder.month st v =
      (if isListOfStrings v then ({ st with month := v }, none)
       else (st, some (.valueError (RequestBuilder.listOfStringsMsg "month")))) := by
  unfold RequestBuilder.month
  rw [validate_strings_eq]
  by_cases h : isListOfStrings v <;> simp [h]

theorem day_eq (st : WeatherApi) (v : PyVal) :
    RequestBuilder.day st v =
      (if isListOfStrings v then ({ st with day := v }, none)
       else (st, some (.valueError (RequestBuilder.listOfStringsMsg "day")))) := by
  unfold RequestBuilder.day
  rw [validate_strings_eq]
  by_cases h : isListOfStrings v <;> simp [h]

theorem time_eq (st : WeatherApi) (v : PyVal) :
    RequestBuilder.time st v =
      (if isListOfStrings v then ({ st with time := v }, none)
       else (st, some (.valueError (RequestBuilder.listOfStringsMsg "time")))) := by
  unfold RequestBuilder.time
  rw [validate_strings_eq]
  by_cases h : isListOfStrings v <;> simp [h]

theorem data_format_eq (st : WeatherApi) (v : String) :
    RequestBuilder.data_format st v =
      (if pyLower (pyStrip v) ∈ ["netcdf", "grib"]
       then ({ st with data_format := pyLower (pyStrip v) }, none)
       else (st, some (.validationError ("Invalid data_format " ++ pyLower (pyStrip v) ++
         ". Data format must be one of \x27netcdf\x27, \x27grib\x27.")))) := by
  unfold RequestBuilder.data_format
  simp only [norm2_eq]
  by_cases h : pyLower (pyStrip v) ∈ ["netcdf", "grib"]
  · rw [if_neg (not_not_intro h), if_pos h]
  · rw [if_pos h, if_neg h]

theorem download_format_eq (st : WeatherApi) (v : String) :
    RequestBuilder.download_format st v =
      (if pyLower (pyStrip v) ∈ ["unarchived", "zip"]
       then ({ st with download_format := pyLower (pyStrip v) }, none)
       else (st, some (.validationError ("Invalid download_format " ++ pyLower (pyStrip v) ++
         ". Downlaod format must be one of \x27unarchived\x27, \x27zip\x27.")))) := by
  unfold RequestBuilder.download_format
  simp only [norm2_eq]
  by_cases h : pyLower (pyStrip v) ∈ ["unarchived", "zip"]
  · rw [if_neg (not_not_intro h), if_pos h]
  · rw [if_pos h, if_neg h]

theorem area_type_err (st : WeatherApi) (v : PyVal) (h : isListOfNumbers v = false) :
    RequestBuilder.area st v =
      (st, some (.valueError "The list must contain integer or float type elements only.")) := by
  unfold RequestBuilder.area
  rw [validate_numbers_eq, if_neg (by simp [h])]

theorem area_len_err (st : WeatherApi) (xs : List PyVal)
    (h : isListOfNumbers (.listVal xs) = true) (hlen : xs.length ≠ 4) :
    RequestBuilder.area st (.listVal xs) =
      (st, some (.validationError "BoundingBox must have exactly 4 values: [N, W, S, E]")) := by
  unfold RequestBuilder.area
  rw [validate_numbers_eq, if_pos h]
  rcases xs with _ | ⟨a, _ | ⟨b, _ | ⟨c, _ | ⟨d, _ | ⟨e, rest⟩⟩⟩⟩⟩ <;>
    first
      | rfl
      | (exact absurd rfl hlen)

theorem area_box (st : WeatherApi) (a b c d : PyVal)
    (h : isListOfNumbers (.listVal [a, b, c, d]) = true) :
    (¬ (-90 ≤ c.toRat ∧ c.toRat ≤ a.toRat ∧ a.toRat ≤ 90) →
      RequestBuilder.area st (.listVal [a, b, c, d]) =
        (st, some (.latitudeError "North must be >= South and both within [-90, 90]"))) ∧
    ((-90 ≤ c.toRat ∧ c.toRat ≤ a.toRat ∧ a.toRat ≤ 90) →
     ¬ (-180 ≤ b.toRat ∧ b.toRat ≤ d.toRat ∧ d.toRat ≤ 180) →
      RequestBuilder.area st (.listVal [a, b, c, d]) =
        (st, some (.longitudeError "East must be >= West and both within [-180, 180]"))) ∧
    ((-90 ≤ c.toRat ∧ c.toRat ≤ a.toRat ∧ a.toRat ≤ 90) →
     (-180 ≤ b.toRat ∧ b.toRat ≤ d.toRat ∧ d.toRat ≤ 180) →
      RequestBuilder.area st (.listVal [a, b, c, d]) =
        ({ st with area := .listVal [a, b, c, d] }, none)) := by
  unfold RequestBuilder.area
  rw [validate_numbers_eq, if_pos h]
  refine ⟨?_, ?_, ?_⟩
  · intro hlat
    simp [hlat]
  · intro hlat hlon
    simp [hlat.1, hlat.2.1, hlat.2.2, hlon]
  · intro hlat hlon
    simp [hlat.1, hlat.2.1, hlat.2.2, hlon.1, hlon.2.1, hlon.2.2]

theorem area_ok_inv (st : WeatherApi) (v : PyVal) (st2 : WeatherApi)
    (h : RequestBuilder.area st v = (st2, none)) :
    st2 = { st with area := v } ∧ validArea v = true := by
  by_cases hn : isListOfNumbers v = true
  · cases v with
    | intVal n => simp [isListOfNumbers] at hn
    | floatVal q => simp [isListOfNumbers] at hn
    | strVal s => simp [isListOfNumbers] at hn
    | listVal xs =>
      rcases xs with _ | ⟨a, _ | ⟨b, _ | ⟨c, _ | ⟨d, _ | ⟨e, rest⟩⟩⟩⟩⟩
      · rw [area_len_err st _ hn (by simp)] at h
        exact absurd (congrArg Prod.snd h) (by simp)
      · rw [area_len_err st _ hn (by simp)] at h
        exact absurd (congrArg Prod.snd h) (by simp)
      · rw [area_len_err st _ hn (by simp)] at h
        exact absurd (congrArg Prod.snd h) (by simp)
      · rw [area_len_err st _ hn (by simp)] at h
        exact absurd (congrArg Prod.snd h) (by simp)
      · by_cases hlat : (-90 ≤ c.toRat ∧ c.toRat ≤ a.toRat ∧ a.toRat ≤ 90)
        · by_cases hlon : (-180 ≤ b.toRat ∧ b.toRat ≤ d.toRat ∧ d.toRat ≤ 180)
          · rw [(area_box st a b c d hn).2.2 hlat hlon] at h
            refine ⟨(congrArg Prod.fst h).symm, ?_⟩
            simp only [isListOfNumbers, List.all_cons, List.all_nil,
              Bool.and_true, Bool.and_eq_true] at hn
            simp [validArea, hn.1, hn.2.1, hn.2.2.1, hn.2.2.2,
              hlat.1, hlat.2.1, hlat.2.2, hlon.1, hlon.2.1, hlon.2.2]
          · rw [(area_box st a b c d hn).2.1 hlat hlon] at h
            exact absurd (congrArg Prod.snd h) (by simp)
        · rw [(area_box st a b c d hn).1 hlat] at h
          exact absurd (congrArg Prod.snd h) (by simp)
      · rw [area_len_err st _ hn (by simp)] at h
        exact absurd (congrArg Prod.snd h) (by simp)
  · rw [area_type_err st v (by simpa using hn)] at h
    exact absurd (congrArg Prod.snd h) (by simp)

/-- C3: for every list of exactly four numeric values `[N, W, S, E]`, the
area setter raises a `LatitudeError` if `¬(-90 ≤ S ≤ N ≤ 90)` (this check
runs first, so it wins when the longitude constraint also fails), raises
a `LongitudeError` if the latitude constraint holds but
`¬(-180 ≤ W ≤ E ≤ 180)`, and otherwise assigns the box to the
descriptor's `area` field; a non-numeric element or a length other than 4
is rejected before any coordinate check; `area([0, 60, 40, 100])` fails
with a latitude error and `area([40, 100, 0, 60])` with a longitude
error. -/
theorem C3_area_correct :
    (∀ st (a b c d : PyVal), a.isNum = true → b.isNum = true →
      c.isNum = true → d.isNum = true →
      ((¬ (-90 ≤ c.toRat ∧ c.toRat ≤ a.toRat ∧ a.toRat ≤ 90) →
        ∃ m, RequestBuilder.area st (.listVal [a, b, c, d]) =
          (st, some (.latitudeError m))) ∧
       ((-90 ≤ c.toRat ∧ c.toRat ≤ a.toRat ∧ a.toRat ≤ 90) →
        ¬ (-180 ≤ b.toRat ∧ b.toRat ≤ d.toRat ∧ d.toRat ≤ 180) →
        ∃ m, RequestBuilder.area st (.listVal [a, b, c, d]) =
          (st, some (.longitudeError m))) ∧
       ((-90 ≤ c.toRat ∧ c.toRat ≤ a.toRat ∧ a.toRat ≤ 90) →
        (-180 ≤ b.toRat ∧ b.toRat ≤ d.toRat ∧ d.toRat ≤ 180) →
        RequestBuilder.area st (.listVal [a, b, c, d]) =
          ({ st with area := .listVal [a, b, c, d] }, none)))) ∧
    (∀ st v, isListOfNumbers v = false →
      ∃ m, RequestBuilder.area st v = (st, some (.valueError m))) ∧
    (∀ st xs, isListOfNumbers (.listVal xs) = true → xs.length ≠ 4 →
      ∃ m, RequestBuilder.area st (.listVal xs) = (st, some (.validationError m))) ∧
    (∃ m, RequestBuilder.area WeatherApi.init
        (.listVal [.intVal 0, .intVal 60, .intVal 40, .intVal 100]) =
        (WeatherApi.init, some (.latitudeError m))) ∧
    (∃ m, RequestBuilder.area WeatherApi.init
        (.listVal [.intVal 40, .intVal 100, .intVal 0, .intVal 60]) =
        (WeatherApi.init, some (.longitudeError m))) := by
  refine ⟨?_, ?_, ?_, ?_, ?_⟩
  · intro st a b c d ha hb hc hd
    have hn : isListOfNumbers (.listVal [a, b, c, d]) = true := by
      simp [isListOfNumbers, ha, hb, hc, hd]
    refine ⟨?_, ?_, ?_⟩
    · intro hlat
      exact ⟨_, (area_box st a b c d hn).1 hlat⟩
    · intro hlat hlon
      exact ⟨_, (area_box st a b c d hn).2.1 hlat hlon⟩
    · intro hlat hlon
      exact (area_box st a b c d hn).2.2 hlat hlon
  · intro st v h
    exact ⟨_, area_type_err st v h⟩
  · intro st xs h hlen
    exact ⟨_, area_len_err st xs h hlen⟩
  · refine ⟨_, (area_box WeatherApi.init
        (.intVal 0) (.intVal 60) (.intVal 40) (.intVal 100) rfl).1 ?_⟩
    norm_num [PyVal.toRat]
  · refine ⟨_, (area_box WeatherApi.init
        (.intVal 40) (.intVal 100) (.intVal 0) (.intVal 60) rfl).2.1 ?_ ?_⟩
    · norm_num [PyVal.toRat]
    · norm_num [PyVal.toRat]

/-- Witness for C3 at the concrete latitude-violating box [0, 60, 40, 100]. -/
theorem C3_area_correct_witness :
    ∃ m, RequestBuilder.area WeatherApi.init
        (.listVal [.intVal 0, .intVal 60, .intVal 40, .intVal 100]) =
      (WeatherApi.init, some (.latitudeError m)) :=
  (C3_area_correct.1 WeatherApi.init (.intVal 0) (.intVal 60) (.intVal 40) (.intVal 100)
      rfl rfl rfl rfl).1 (by norm_num [PyVal.toRat])

/-- C4: each of the six list setters (`product_type`, `variables`,
`year`, `month`, `day`, `time`) fails on any input that is not a list of
strings, with a `ValueError` whose message names the offending field —
an error outside the `ValidationError` hierarchy — and on any list of
strings overwrites exactly the corresponding descriptor field; in
particular `product_type(["reanalysis", 5])` fails with that type error. -/
theorem C4_list_setters_correct :
    (∀ st v, (isListOfStrings v = false →
        RequestBuilder.product_type st v =
          (st, some (.valueError (RequestBuilder.listOfStringsMsg "product_type")))) ∧
      (isListOfStrings v = true →
        RequestBuilder.product_type st v = ({ st with product_type := v }, none))) ∧
    (∀ st v, (isListOfStrings v = false →
        RequestBuilder.variables_ st v =
          (st, some (.valueError (RequestBuilder.listOfStringsMsg "variables")))) ∧
      (isListOfStrings v = true →
        RequestBuilder.variables_ st v = ({ st with variables_ := v }, none))) ∧
    (∀ st v, (isListOfStrings v = false →
        RequestBuilder.year st v =
          (st, some (.valueError (RequestBuilder.listOfStringsMsg "year")))) ∧
      (isListOfStrings v = true →
        RequestBuilder.year st v = ({ st with year := v }, none))) ∧
    (∀ st v, (isListOfStrings v = false →
        RequestBuilder.month st v =
          (st, some (.valueError (RequestBuilder.listOfStringsMsg "month")))) ∧
      (isListOfStrings v = true →
        RequestBuilder.month st v = ({ st with month := v }, none))) ∧
    (∀ st v, (isListOfStrings v = false →
        RequestBuilder.day st v =
          (st, some (.valueError (RequestBuilder.listOfStringsMsg "day")))) ∧
      (isListOfStrings v = true →
        RequestBuilder.day st v = ({ st with day := v }, none))) ∧
    (∀ st v, (isListOfStrings v = false →
        RequestBuilder.time st v =
          (st, some (.valueError (RequestBuilder.listOfStringsMsg "time")))) ∧
      (isListOfStrings v = true →
        RequestBuilder.time st v = ({ st with time := v }, none))) ∧
    (∀ m, (Err.valueError m).isValidationError = false) ∧
    RequestBuilder.product_type WeatherApi.init
        (.listVal [.strVal "reanalysis", .intVal 5]) =
      (WeatherApi.init,
       some (.valueError (RequestBuilder.listOfStringsMsg "product_type"))) := by
  refine ⟨?_, ?_, ?_, ?_, ?_, ?_, fun m => rfl, ?_⟩
  · intro st v
    rw [product_type_eq]
    exact ⟨fun h => by simp [h], fun h => by simp [h]⟩
  · intro st v
    rw [variables_eq]
    exact ⟨fun h => by simp [h], fun h => by simp [h]⟩
  · intro st v
    rw [year_eq]
    exact ⟨fun h => by simp [h], fun h => by simp [h]⟩
  · intro st v
    rw [month_eq]
    exact ⟨fun h => by simp [h], fun h => by simp [h]⟩
  · intro st v
    rw [day_eq]
    exact ⟨fun h => by simp [h], fun h => by simp [h]⟩
  · intro st v
    rw [time_eq]
    exact ⟨fun h => by simp [h], fun h => by simp [h]⟩
  · rw [product_type_eq]
    simp [isListOfStrings, PyVal.isStr]

/-- Witness for C4: `product_type(["reanalysis", 5])` is rejected. -/
theorem C4_list_setters_correct_witness :
    RequestBuilder.product_type WeatherApi.init
        (.listVal [.strVal "reanalysis", .intVal 5]) =
      (WeatherApi.init,
       some (.valueError (RequestBuilder.listOfStringsMsg "product_type"))) :=
  (C4_list_setters_correct.1 WeatherApi.init
      (.listVal [.strVal "reanalysis", .intVal 5])).1 rfl

/-- C7: `data_format` normalizes its string input by trimming whitespace
and lower-casing; if the normalized value is in {"netcdf", "grib"} it
stores the normalized value, otherwise it fails with a validation error;
`download_format` behaves identically with {"unarchived", "zip"}; in
particular `data_format(" NetCDF ")` stores "netcdf" and
`data_format("csv")` fails. -/
theorem C7_format_setters_correct :
    (∀ st v, (pyLower (pyStrip v) ∈ ["netcdf", "grib"] →
        RequestBuilder.data_format st v =
          ({ st with data_format := pyLower (pyStrip v) }, none)) ∧
      (pyLower (pyStrip v) ∉ ["netcdf", "grib"] →
        ∃ m, RequestBuilder.data_format st v = (st, some (.validationError m)))) ∧
    (∀ st v, (pyLower (pyStrip v) ∈ ["unarchived", "zip"] →
        RequestBuilder.download_format st v =
          ({ st with download_format := pyLower (pyStrip v) }, none)) ∧
      (pyLower (pyStrip v) ∉ ["unarchived", "zip"] →
        ∃ m, RequestBuilder.download_format st v = (st, some (.validationError m)))) ∧
    RequestBuilder.data_format WeatherApi.init " NetCDF " =
      ({ WeatherApi.init with data_format := "netcdf" }, none) ∧
    (∃ m, RequestBuilder.data_format WeatherApi.init "csv" =
      (WeatherApi.init, some (.validationError m))) := by
  refine ⟨?_, ?_, ?_, ?_⟩
  · intro st v
    rw [data_format_eq]
    exact ⟨fun h => by rw [if_pos h], fun h => ⟨_, by rw [if_neg h]⟩⟩
  · intro st v
    rw [download_format_eq]
    exact ⟨fun h => by rw [if_pos h], fun h => ⟨_, by rw [if_neg h]⟩⟩
  · rw [data_format_eq, if_pos (by decide)]
    simp [show pyLower (pyStrip " NetCDF ") = "netcdf" from by decide]
  · rw [data_format_eq, if_neg (by decide)]
    exact ⟨_, rfl⟩

/-- Witness for C7 at the concrete input " NetCDF ". -/
theorem C7_format_setters_correct_witness :
    RequestBuilder.data_format WeatherApi.init " NetCDF " =
      ({ WeatherApi.init with data_format := pyLower (pyStrip " NetCDF ") }, none) :=
  (C7_format_setters_correct.1 WeatherApi.init " NetCDF ").1 (by decide)

/-- C5: every setter that raises leaves the descriptor exactly in its
prior state — the embedded setters translate the source statement by
statement, so this theorem states that no error path returns a mutated
descriptor. -/
theorem C5_setter_atomicity :
    (∀ st v, (RequestBuilder.product_type st v).2.isSome = true →
      (RequestBuilder.product_type st v).1 = st) ∧
    (∀ st v, (RequestBuilder.variables_ st v).2.isSome = true →
      (RequestBuilder.variables_ st v).1 = st) ∧
    (∀ st v, (RequestBuilder.year st v).2.isSome = true →
      (RequestBuilder.year st v).1 = st) ∧
    (∀ st v, (RequestBuilder.month st v).2.isSome = true →
      (RequestBuilder.month st v).1 = st) ∧
    (∀ st v, (RequestBuilder.day st v).2.isSome = true →
      (RequestBuilder.day st v).1 = st) ∧
    (∀ st v, (RequestBuilder.time st v).2.isSome = true →
      (RequestBuilder.time st v).1 = st) ∧
    (∀ currentYear st a b, (RequestBuilder.year_range currentYear st a b).2.isSome = true →
      (RequestBuilder.year_range currentYear st a b).1 = st) ∧
    (∀ st a b, (RequestBuilder.month_range st a b).2.isSome = true →
      (RequestBuilder.month_range st a b).1 = st) ∧
    (∀ st a b, (RequestBuilder.day_range st a b).2.isSome = true →
      (RequestBuilder.day_range st a b).1 = st) ∧
    (∀ st a b, (RequestBuilder.time_range st a b).2.isSome = true →
      (RequestBuilder.time_range st a b).1 = st) ∧
    (∀ st v, (RequestBuilder.data_format st v).2.isSome = true →
      (RequestBuilder.data_format st v).1 = st) ∧
    (∀ st v, (RequestBuilder.download_format st v).2.isSome = true →
      (RequestBuilder.download_format st v).1 = st) ∧
    (∀ st v, (RequestBuilder.area st v).2.isSome = true →
      (RequestBuilder.area st v).1 = st) := by
  refine ⟨?_, ?_, ?_, ?_, ?_, ?_, ?_, ?_, ?_, ?_, ?_, ?_, ?_⟩
  · intro st v
    rw [product_type_eq]
    by_cases h : isListOfStrings v <;> simp [h]
  · intro st v
    rw [variables_eq]
    by_cases h : isListOfStrings v <;> simp [h]
  · intro st v
    rw [year_eq]
    by_cases h : isListOfStrings v <;> simp [h]
  · intro st v
    rw [month_eq]
    by_cases h : isListOfStrings v <;> simp [h]
  · intro st v
    rw [day_eq]
    by_cases h : isListOfStrings v <;> simp [h]
  · intro st v
    rw [time_eq]
    by_cases h : isListOfStrings v <;> simp [h]
  · intro currentYear st a b
    unfold RequestBuilder.year_range
    cases CDSFormatter.year_range currentYear a b <;> simp
  · intro st a b
    unfold RequestBuilder.month_range
    cases CDSFormatter.month_range a b <;> simp
  · intro st a b
    unfold RequestBuilder.day_range
    cases CDSFormatter.day_range a b <;> simp
  · intro st a b
    unfold RequestBuilder.time_range
    cases CDSFormatter.time_range a b <;> simp
  · intro st v
    rw [data_format_eq]
    by_cases h : pyLower (pyStrip v) ∈ ["netcdf", "grib"] <;> simp [h]
  · intro st v
    rw [download_format_eq]
    by_cases h : pyLower (pyStrip v) ∈ ["unarchived", "zip"] <;> simp [h]
  · intro st v h2
    by_cases hn : isListOfNumbers v = true
    · cases v with
      | intVal n => simp [isListOfNumbers] at hn
      | floatVal q => simp [isListOfNumbers] at hn
      | strVal s => simp [isListOfNumbers] at hn
      | listVal xs =>
        rcases xs with _ | ⟨a, _ | ⟨b, _ | ⟨c, _ | ⟨d, _ | ⟨e, rest⟩⟩⟩⟩⟩
        · rw [area_len_err st _ hn (by simp)]
        · rw [area_len_err st _ hn (by simp)]
        · rw [area_len_err st _ hn (by simp)]
        · rw [area_len_err st _ hn (by simp)]
        · by_cases hlat : (-90 ≤ c.toRat ∧ c.toRat ≤ a.toRat ∧ a.toRat ≤ 90)
          · by_cases hlon : (-180 ≤ b.toRat ∧ b.toRat ≤ d.toRat ∧ d.toRat ≤ 180)
            · rw [(area_box st a b c d hn).2.2 hlat hlon] at h2
              simp at h2
            · rw [(area_box st a b c d hn).2.1 hlat hlon]
          · rw [(area_box st a b c d hn).1 hlat]
        · rw [area_len_err st _ hn (by simp)]
    · rw [area_type_err st v (by simpa using hn)]

/-- Witness for C5: the failing call `month(3)` (not a list) leaves the
descriptor untouched. -/
theorem C5_setter_atomicity_witness :
    (RequestBuilder.month WeatherApi.init (.intVal 3)).2.isSome = true ∧
    (RequestBuilder.month WeatherApi.init (.intVal 3)).1 = WeatherApi.init :=
  ⟨rfl, C5_setter_atomicity.2.2.2.1 WeatherApi.init (.intVal 3) rfl⟩

theorem isListOfStrings_strList (ys : List String) :
    isListOfStrings (strList ys) = true := by
  simp [isListOfStrings, strList, PyVal.isStr, List.all_eq_true]

theorem ValidW_set_product_type (st : WeatherApi) (v : PyVal)
    (h : ValidW st = true) (hv : isListOfStrings v = true) :
    ValidW { st with product_type := v } = true := by
  simp only [ValidW, Bool.and_eq_true] at h ⊢
  tauto

theorem ValidW_set_variables (st : WeatherApi) (v : PyVal)
    (h : ValidW st = true) (hv : isListOfStrings v = true) :
    ValidW { st with variables_ := v } = true := by
  simp only [ValidW, Bool.and_eq_true] at h ⊢
  tauto

theorem ValidW_set_year (st : WeatherApi) (v : PyVal)
    (h : ValidW st = true) (hv : isListOfStrings v = true) :
    ValidW { st with year := v } = true := by
  simp only [ValidW, Bool.and_eq_true] at h ⊢
  tauto

theorem ValidW_set_month (st : WeatherApi) (v : PyVal)
    (h : ValidW st = true) (hv : isListOfStrings v = true) :
    ValidW { st with month := v } = true := by
  simp only [ValidW, Bool.and_eq_true] at h ⊢
  tauto

theorem ValidW_set_day (st : WeatherApi) (v : PyVal)
    (h : ValidW st = true) (hv : isListOfStrings v = true) :
    ValidW { st with day := v } = true := by
  simp only [ValidW, Bool.and_eq_true] at h ⊢
  tauto

theorem ValidW_set_time (st : WeatherApi) (v : PyVal)
    (h : ValidW st = true) (hv : isListOfStrings v = true) :
    ValidW { st with time := v } = true := by
  simp only [ValidW, Bool.and_eq_true] at h ⊢
  tauto

theorem ValidW_set_data_format (st : WeatherApi) (v : String)
    (h : ValidW st = true) (hv : v = "netcdf" ∨ v = "grib") :
    ValidW { st with data_format := v } = true := by
  simp only [ValidW, Bool.and_eq_true, Bool.or_eq_true, beq_iff_eq] at h ⊢
  tauto

theorem ValidW_set_download_format (st : WeatherApi) (v : String)
    (h : ValidW st = true) (hv : v = "unarchived" ∨ v = "zip") :
    ValidW { st with download_format := v } = true := by
  simp only [ValidW, Bool.and_eq_true, Bool.or_eq_true, beq_iff_eq] at h ⊢
  tauto

theorem ValidW_set_area (st : WeatherApi) (v : PyVal)
    (h : ValidW st = true) (hv : validArea v = true) :
    ValidW { st with area := v } = true := by
  simp only [ValidW, Bool.and_eq_true] at h ⊢
  tauto

theorem year_range_set_ok (currentYear : Int) (st : WeatherApi) (a b : Int)
    (st2 : WeatherApi) (h : RequestBuilder.year_range currentYear st a b = (st2, none)) :
    ∃ ys, st2 = { st with year := strList ys } := by
  unfold RequestBuilder.year_range at h
  cases hf : CDSFormatter.year_range currentYear a b with
  | ok ys =>
    rw [hf] at h
    exact ⟨ys, (congrArg Prod.fst h).symm⟩
  | error e =>
    rw [hf] at h
    simpa using congrArg Prod.snd h

theorem month_range_set_ok (st : WeatherApi) (a b : Int)
    (st2 : WeatherApi) (h : RequestBuilder.month_range st a b = (st2, none)) :
    ∃ ms, st2 = { st with month := strList ms } := by
  unfold RequestBuilder.month_range at h
  cases hf : CDSFormatter.month_range a b with
  | ok ms =>
    rw [hf] at h
    exact ⟨ms, (congrArg Prod.fst h).symm⟩
  | error e =>
    rw [hf] at h
    simpa using congrArg Prod.snd h

theorem day_range_set_ok (st : WeatherApi) (a b : Int)
    (st2 : WeatherApi) (h : RequestBuilder.day_range st a b = (st2, none)) :
    ∃ ds, st2 = { st with day := strList ds } := by
  unfold RequestBuilder.day_range at h
  cases hf : CDSFormatter.day_range a b with
  | ok ds =>
    rw [hf] at h
    exact ⟨ds, (congrArg Prod.fst h).symm⟩
  | error e =>
    rw [hf] at h
    simpa using congrArg Prod.snd h

theorem time_range_set_ok (st : WeatherApi) (a b : Int)
    (st2 : WeatherApi) (h : RequestBuilder.time_range st a b = (st2, none)) :
    ∃ ts, st2 = { st with time := strList ts } := by
  unfold RequestBuilder.time_range at h
  cases hf : CDSFormatter.time_range a b with
  | ok ts =>
    rw [hf] at h
    exact ⟨ts, (congrArg Prod.fst h).symm⟩
  | error e =>
    rw [hf] at h
    simpa using congrArg Prod.snd h

theorem product_type_ok_inv (st st2 : WeatherApi) (v : PyVal)
    (h : RequestBuilder.product_type st v = (st2, none)) :
    st2 = { st with product_type := v } ∧ isListOfStrings v = true := by
  rw [product_type_eq] at h
  by_cases hb : isListOfStrings v
  · rw [if_pos hb] at h
    exact ⟨(congrArg Prod.fst h).symm, hb⟩
  · rw [if_neg hb] at h
    simpa using congrArg Prod.snd h

theorem variables_ok_inv (st st2 : WeatherApi) (v : PyVal)
    (h : RequestBuilder.variables_ st v = (st2, none)) :
    st2 = { st with variables_ := v } ∧ isListOfStrings v = true := by
  rw [variables_eq] at h
  by_cases hb : isListOfStrings v
  · rw [if_pos hb] at h
    exact ⟨(congrArg Prod.fst h).symm, hb⟩
  · rw [if_neg hb] at h
    simpa using congrArg Prod.snd h

theorem year_ok_inv (st st2 : WeatherApi) (v : PyVal)
    (h : RequestBuilder.year st v = (st2, none)) :
    st2 = { st with year := v } ∧ isListOfStrings v = true := by
  rw [year_eq] at h
  by_cases hb : isListOfStrings v
  · rw [if_pos hb] at h
    exact ⟨(congrArg Prod.fst h).symm, hb⟩
  · rw [if_neg hb] at h
    simpa using congrArg Prod.snd h

theorem month_ok_inv (st st2 : WeatherApi) (v : PyVal)
    (h : RequestBuilder.month st v = (st2, none)) :
    st2 = { st with month := v } ∧ isListOfStrings v = true := by
  rw [month_eq] at h
  by_cases hb : isListOfStrings v
  · rw [if_pos hb] at h
    exact ⟨(congrArg Prod.fst h).symm, hb⟩
  · rw [if_neg hb] at h
    simpa using congrArg Prod.snd h

theorem day_ok_inv (st st2 : WeatherApi) (v : PyVal)
    (h : RequestBuilder.day st v = (st2, none)) :
    st2 = { st with day := v } ∧ isListOfStrings v = true := by
  rw [day_eq] at h
  by_cases hb : isListOfStrings v
  · rw [if_pos hb] at h
    exact ⟨(congrArg Prod.fst h).symm, hb⟩
  · rw [if_neg hb] at h
    simpa using congrArg Prod.snd h

theorem time_ok_inv (st st2 : WeatherApi) (v : PyVal)
    (h : RequestBuilder.time st v = (st2, none)) :
    st2 = { st with time := v } ∧ isListOfStrings v = true := by
  rw [time_eq] at h
  by_cases hb : isListOfStrings v
  · rw [if_pos hb] at h
    exact ⟨(congrArg Prod.fst h).symm, hb⟩
  · rw [if_neg hb] at h
    simpa using congrArg Prod.snd h

theorem data_format_ok_inv (st st2 : WeatherApi) (v : String)
    (h : RequestBuilder.data_format st v = (st2, none)) :
    st2 = { st with data_format := pyLower (pyStrip v) } ∧
    (pyLower (pyStrip v) = "netcdf" ∨ pyLower (pyStrip v) = "grib") := by
  rw [data_format_eq] at h
  by_cases hb : pyLower (pyStrip v) ∈ ["netcdf", "grib"]
  · rw [if_pos hb] at h
    exact ⟨(congrArg Prod.fst h).symm, by simpa using hb⟩
  · rw [if_neg hb] at h
    simpa using congrArg Prod.snd h

theorem download_format_ok_inv (st st2 : WeatherApi) (v : String)
    (h : RequestBuilder.download_format st v = (st2, none)) :
    st2 = { st with download_format := pyLower (pyStrip v) } ∧
    (pyLower (pyStrip v) = "unarchived" ∨ pyLower (pyStrip v) = "zip") := by
  rw [download_format_eq] at h
  by_cases hb : pyLower (pyStrip v) ∈ ["unarchived", "zip"]
  · rw [if_pos hb] at h
    exact ⟨(congrArg Prod.fst h).symm, by simpa using hb⟩
  · rw [if_neg hb] at h
    simpa using congrArg Prod.snd h

/-- C10: validity is an invariant of every reachable builder state — the
constructor defaults are valid, and every successful setter call
preserves validity of the owned descriptor. -/
theorem C10_validity_invariant : ∀ st, Reachable st → ValidW st = true := by
  intro st hr
  induction hr with
  | init => decide
  | step st st2 hr hstep ih =>
    cases hstep with
    | dataset_set st v st2 hcall =>
      have hshape : st2 = { st with dataset := v } :=
        (congrArg Prod.fst hcall).symm
      subst hshape
      simpa only [ValidW] using ih
    | product_type st v st2 hcall =>
      obtain ⟨hshape, hv⟩ := product_type_ok_inv st st2 v hcall
      subst hshape
      exact ValidW_set_product_type st v ih hv
    | variables_ st v st2 hcall =>
      obtain ⟨hshape, hv⟩ := variables_ok_inv st st2 v hcall
      subst hshape
      exact ValidW_set_variables st v ih hv
    | year st v st2 hcall =>
      obtain ⟨hshape, hv⟩ := year_ok_inv st st2 v hcall
      subst hshape
      exact ValidW_set_year st v ih hv
    | month st v st2 hcall =>
      obtain ⟨hshape, hv⟩ := month_ok_inv st st2 v hcall
      subst hshape
      exact ValidW_set_month st v ih hv
    | day st v st2 hcall =>
      obtain ⟨hshape, hv⟩ := day_ok_inv st st2 v hcall
      subst hshape
      exact ValidW_set_day st v ih hv
    | time st v st2 hcall =>
      obtain ⟨hshape, hv⟩ := time_ok_inv st st2 v hcall
      subst hshape
      exact ValidW_set_time st v ih hv
    | year_range currentYear st a b st2 hcall =>
      obtain ⟨ys, hshape⟩ := year_range_set_ok currentYear st a b st2 hcall
      subst hshape
      exact ValidW_set_year st _ ih (isListOfStrings_strList ys)
    | month_range st a b st2 hcall =>
      obtain ⟨ms, hshape⟩ := month_range_set_ok st a b st2 hcall
      subst hshape
      exact ValidW_set_month st _ ih (isListOfStrings_strList ms)
    | day_range st a b st2 hcall =>
      obtain ⟨ds, hshape⟩ := day_range_set_ok st a b st2 hcall
      subst hshape
      exact ValidW_set_day st _ ih (isListOfStrings_strList ds)
    | time_range st a b st2 hcall =>
      obtain ⟨ts, hshape⟩ := time_range_set_ok st a b st2 hcall
      subst hshape
      exact ValidW_set_time st _ ih (isListOfStrings_strList ts)
    | data_format st v st2 hcall =>
      obtain ⟨hshape, hv⟩ := data_format_ok_inv st st2 v hcall
      subst hshape
      exact ValidW_set_data_format st _ ih hv
    | download_format st v st2 hcall =>
      obtain ⟨hshape, hv⟩ := download_format_ok_inv st st2 v hcall
      subst hshape
      exact ValidW_set_download_format st _ ih hv
    | area st v st2 hcall =>
      obtain ⟨hshape, hv⟩ := area_ok_inv st v st2 hcall
      subst hshape
      exact ValidW_set_area st v ih hv

/-- Witness for C10 on a concrete two-step reachable state: defaults,
then a successful `month(["05"])` call. -/
theorem C10_validity_invariant_witness :
    ValidW { WeatherApi.init with month := .listVal [.strVal "05"] } = true :=
  C10_validity_invariant _
    (Reachable.step WeatherApi.init _ Reachable.init
      (Step.month WeatherApi.init (.listVal [.strVal "05"]) _ (by rw [month_eq]; rfl)))

theorem heap_get_put_self (hp : Heap) (r : Ref) (w : WeatherApi)
    (h : r < hp.cells.length) : (hp.put r w).get r = w := by
  unfold Heap.get Heap.put
  rw [List.getD_eq_getElem?_getD, List.getElem?_set_self (by simpa using h)]
  rfl

theorem eqExcept_update_dataset (st : WeatherApi) (v : String) :
    eqExcept .dataset st { st with dataset := v } := by
  intro u hu
  cases u <;> first | rfl | simp at hu

theorem eqExcept_update_product_type (st : WeatherApi) (v : PyVal) :
    eqExcept .product_type st { st with product_type := v } := by
  intro u hu
  cases u <;> first | rfl | simp at hu

theorem eqExcept_update_variables (st : WeatherApi) (v : PyVal) :
    eqExcept .variables_ st { st with variables_ := v } := by
  intro u hu
  cases u <;> first | rfl | simp at hu

theorem eqExcept_update_year (st : WeatherApi) (v : PyVal) :
    eqExcept .year st { st with year := v } := by
  intro u hu
  cases u <;> first | rfl | simp at hu

theorem eqExcept_update_month (st : WeatherApi) (v : PyVal) :
    eqExcept .month st { st with month := v } := by
  intro u hu
  cases u <;> first | rfl | simp at hu

theorem eqExcept_update_day (st : WeatherApi) (v : PyVal) :
    eqExcept .day st { st with day := v } := by
  intro u hu
  cases u <;> first | rfl | simp at hu

theorem eqExcept_update_time (st : WeatherApi) (v : PyVal) :
    eqExcept .time st { st with time := v } := by
  intro u hu
  cases u <;> first | rfl | simp at hu

theorem eqExcept_update_data_format (st : WeatherApi) (v : String) :
    eqExcept .data_format st { st with data_format := v } := by
  intro u hu
  cases u <;> first | rfl | simp at hu

theorem eqExcept_update_download_format (st : WeatherApi) (v : String) :
    eqExcept .download_format st { st with download_format := v } := by
  intro u hu
  cases u <;> first | rfl | simp at hu

theorem eqExcept_update_area (st : WeatherApi) (v : PyVal) :
    eqExcept .area st { st with area := v } := by
  intro u hu
  cases u <;> first | rfl | simp at hu

/-- C9 counterexample: one concrete run refuting the claim as stated.  A
fresh builder is created, `build()` is called, the month field is changed
by a successful `month(["05"])` call, and `build()` is called again.
Because `build()` returns the stored reference without cloning, the two
"descriptors" are the same object: after the run the descriptor obtained
from the first build has the same `month` as the one from the second
build (both hold the new value), even though the setter succeeded and
genuinely changed the field — contradicting "yields two descriptors
whose field F differs". -/
theorem C9_build_counterexample :
    let h0 : Heap := ⟨[]⟩
    let p1 := RequestBuilder.mkNew h0
    let d1 := RequestBuilder.build p1.2
    let p2 := RequestBuilder.runOn p1.1 p1.2
      (fun w => RequestBuilder.month w (.listVal [.strVal "05"]))
    let d2 := RequestBuilder.build p1.2
    p2.2 = none ∧
    (p2.1.get d2).month ≠ (p1.1.get d1).month ∧
    ¬ ((p2.1.get d1).month ≠ (p2.1.get d2).month) := by
  refine ⟨rfl, ?_, fun hne => hne rfl⟩
  intro heq
  have : (PyVal.listVal [.strVal "05"]) = WeatherApi.init.month := by
    simpa [RequestBuilder.runOn, RequestBuilder.mkNew, RequestBuilder.build,
      Heap.alloc, Heap.put, Heap.get, month_eq, isListOfStrings] using heq
  simp [WeatherApi.init, strList] at this

/-- C9 amended: `build()` returns the stored reference both times, so the
two build calls yield the same descriptor object (not two isolated
snapshots); any setter run through the builder writes through that one
reference, so reading through either build result observes the post-call
state; and every successful setter call sets exactly its own field to the
validated value, leaving every other field unchanged — hence the
descriptor value observed at the first build and the value after the
setter differ exactly in the field that was set (when the new value
differs from the old), while `build()` itself performs no validation or
mutation. -/
theorem C9_build_amended :
    (∀ b : BuilderObj, RequestBuilder.build b = b.req) ∧
    (∀ (hp : Heap) (b : BuilderObj) (f : WeatherApi → WeatherApi × Option Err),
      b.req < hp.cells.length →
      (RequestBuilder.runOn hp b f).1.get (RequestBuilder.build b) =
        (f (hp.get b.req)).1) ∧
    (∀ st st2 v, RequestBuilder.dataset_set st v = (st2, none) →
      st2.dataset = v ∧ eqExcept .dataset st st2) ∧
    (∀ st st2 v, RequestBuilder.product_type st v = (st2, none) →
      st2.product_type = v ∧ eqExcept .product_type st st2) ∧
    (∀ st st2 v, RequestBuilder.variables_ st v = (st2, none) →
      st2.variables_ = v ∧ eqExcept .variables_ st st2) ∧
    (∀ st st2 v, RequestBuilder.year st v = (st2, none) →
      st2.year = v ∧ eqExcept .year st st2) ∧
    (∀ st st2 v, RequestBuilder.month st v = (st2, none) →
      st2.month = v ∧ eqExcept .month st st2) ∧
    (∀ st st2 v, RequestBuilder.day st v = (st2, none) →
      st2.day = v ∧ eqExcept .day st st2) ∧
    (∀ st st2 v, RequestBuilder.time st v = (st2, none) →
      st2.time = v ∧ eqExcept .time st st2) ∧
    (∀ currentYear st st2 a b, RequestBuilder.year_range currentYear st a b = (st2, none) →
      (∃ ys, st2.year = strList ys) ∧ eqExcept .year st st2) ∧
    (∀ st st2 a b, RequestBuilder.month_range st a b = (st2, none) →
      (∃ ms, st2.month = strList ms) ∧ eqExcept .month st st2) ∧
    (∀ st st2 a b, RequestBuilder.day_range st a b = (st2, none) →
      (∃ ds, st2.day = strList ds) ∧ eqExcept .day st st2) ∧
    (∀ st st2 a b, RequestBuilder.time_range st a b = (st2, none) →
      (∃ ts, st2.time = strList ts) ∧ eqExcept .time st st2) ∧
    (∀ st st2 v, RequestBuilder.data_format st v = (st2, none) →
      st2.data_format = pyLower (pyStrip v) ∧ eqExcept .data_format st st2) ∧
    (∀ st st2 v, RequestBuilder.download_format st v = (st2, none) →
      st2.download_format = pyLower (pyStrip v) ∧ eqExcept .download_format st st2) ∧
    (∀ st st2 v, RequestBuilder.area st v = (st2, none) →
      st2.area = v ∧ eqExcept .area st st2) := by
  refine ⟨fun b => rfl, ?_, ?_, ?_, ?_, ?_, ?_, ?_, ?_, ?_, ?_, ?_, ?_, ?_, ?_, ?_⟩
  · intro hp b f hlen
    unfold RequestBuilder.runOn RequestBuilder.build
    exact heap_get_put_self hp b.req _ hlen
  · intro st st2 v h
    have hshape : st2 = { st with dataset := v } := (congrArg Prod.fst h).symm
    subst hshape
    exact ⟨rfl, eqExcept_update_dataset st v⟩
  · intro st st2 v h
    obtain ⟨hshape, hv⟩ := product_type_ok_inv st st2 v h
    subst hshape
    exact ⟨rfl, eqExcept_update_product_type st v⟩
  · intro st st2 v h
    obtain ⟨hshape, hv⟩ := variables_ok_inv st st2 v h
    subst hshape
    exact ⟨rfl, eqExcept_update_variables st v⟩
  · intro st st2 v h
    obtain ⟨hshape, hv⟩ := year_ok_inv st st2 v h
    subst hshape
    exact ⟨rfl, eqExcept_update_year st v⟩
  · intro st st2 v h
    obtain ⟨hshape, hv⟩ := month_ok_inv st st2 v h
    subst hshape
    exact ⟨rfl, eqExcept_update_month st v⟩
  · intro st st2 v h
    obtain ⟨hshape, hv⟩ := day_ok_inv st st2 v h
    subst hshape
    exact ⟨rfl, eqExcept_update_day st v⟩
  · intro st st2 v h
    obtain ⟨hshape, hv⟩ := time_ok_inv st st2 v h
    subst hshape
    exact ⟨rfl, eqExcept_update_time st v⟩
  · intro currentYear st st2 a b h
    obtain ⟨ys, hshape⟩ := year_range_set_ok currentYear st a b st2 h
    subst hshape
    exact ⟨⟨ys, rfl⟩, eqExcept_update_year st _⟩
  · intro st st2 a b h
    obtain ⟨ms, hshape⟩ := month_range_set_ok st a b st2 h
    subst hshape
    exact ⟨⟨ms, rfl⟩, eqExcept_update_month st _⟩
  · intro st st2 a b h
    obtain ⟨ds, hshape⟩ := day_range_set_ok st a b st2 h
    subst hshape
    exact ⟨⟨ds, rfl⟩, eqExcept_update_day st _⟩
  · intro st st2 a b h
    obtain ⟨ts, hshape⟩ := time_range_set_ok st a b st2 h
    subst hshape
    exact ⟨⟨ts, rfl⟩, eqExcept_update_time st _⟩
  · intro st st2 v h
    obtain ⟨hshape, hv⟩ := data_format_ok_inv st st2 v h
    subst hshape
    exact ⟨rfl, eqExcept_update_data_format st _⟩
  · intro st st2 v h
    obtain ⟨hshape, hv⟩ := download_format_ok_inv st st2 v h
    subst hshape
    exact ⟨rfl, eqExcept_update_download_format st _⟩
  · intro st st2 v h
    obtain ⟨hshape, hv⟩ := area_ok_inv st v st2 h
    subst hshape
    exact ⟨rfl, eqExcept_update_area st v⟩

/-- Witness for the amended C9 at the concrete successful call
`month(["05"])` on the default descriptor. -/
theorem C9_build_amended_witness :
    ({ WeatherApi.init with month := PyVal.listVal [.strVal "05"] }).month =
        PyVal.listVal [.strVal "05"] ∧
    eqExcept .month WeatherApi.init
      { WeatherApi.init with month := PyVal.listVal [.strVal "05"] } :=
  C9_build_amended.2.2.2.2.2.2.1 WeatherApi.init
    { WeatherApi.init with month := PyVal.listVal [.strVal "05"] }
    (PyVal.listVal [.strVal "05"]) (by rw [month_eq]; rfl)
